import Mathlib

/-!
Shallow embedding of the EDA assistant in `src/app.py` (classes `DataAnalyzer`,
`MemoryManager`, `LLMQueryProcessor` and the session helpers), together with
proofs of the behavioural claims about it.

Modelling conventions:
* pandas cells are `Cell`: a numeric value (`ℚ`, idealising the float), a
  string, or `null` (NaN / missing).
* A pandas column carries its name, its dtype class (`numeric : Bool`, the
  result of `select_dtypes(include=[np.number])`) and its cells; a DataFrame
  carries its row count (the index length) and its column list.
* Library calls whose numerics live outside this repository (scipy's
  `shapiro`, `skew`, `linregress`, sklearn's `IsolationForest`, `hashlib.md5`,
  the OpenAI client, the filesystem) are passed in as explicit function
  parameters ("oracles"): the embedded code is everything around them.
* Pearson correlations involve a square root, so a correlation value `r` is
  represented by its signed square `r * |r|`; the map `r ↦ r * |r|` is a
  strictly monotone bijection of `ℝ`, hence `r = 1` iff the code is `1`,
  `|r| > c` iff the code exceeds `c ^ 2` (for `c ≥ 0`), and ordering by
  `|r|` is ordering by the code's absolute value.  `none` stands for the
  NaN that pandas produces when a column has zero variance.
-/

namespace EDA

/-- A single pandas cell: numeric value, string value, or NaN/missing. -/
inductive Cell where
  | num (q : ℚ)
  | str (s : String)
  | null
deriving Repr, DecidableEq

/-- Numeric view of a cell, as used after `select_dtypes`/`dropna`:
`num q` is the value, anything else reads as missing. -/
def Cell.toNum : Cell → Option ℚ
  | .num q => some q
  | _ => none

/-- A named pandas column with its dtype class. -/
structure Col where
  name : String
  numeric : Bool
  cells : List Cell
deriving Repr, DecidableEq

/-- A pandas DataFrame: an index of `nrows` rows and a list of columns.
`nrows` is carried separately because a pandas frame keeps its index even
with zero columns (`pd.DataFrame(index=...)`). -/
structure DataFrame where
  nrows : ℕ
  cols : List Col
deriving Repr, DecidableEq

namespace DataFrame

def ncols (df : DataFrame) : ℕ := df.cols.length

/-- `df.select_dtypes(include=[np.number]).columns` keeps column order. -/
def numericCols (df : DataFrame) : List Col := df.cols.filter (·.numeric)

/-- `metadata["numeric_cols"]`. -/
def numericNames (df : DataFrame) : List String := (df.numericCols).map (·.name)

/-- `df[name]`: the first column with the given label. -/
def getCol (df : DataFrame) (name : String) : Option Col :=
  df.cols.find? (·.name = name)

end DataFrame

/-- `df[col].dropna()` for a numeric column. -/
def Col.dropna (c : Col) : List ℚ := c.cells.filterMap Cell.toNum

/-! Configuration constants from the top of `app.py`. -/

def MAX_COLUMNS_FOR_ANALYSIS : ℕ := 50
def CORRELATION_THRESHOLD : ℚ := 1/2
def ANOMALY_ZSCORE_THRESHOLD : ℚ := 3
def ANOMALY_IQR_MULTIPLIER : ℚ := 3/2

def ERR_EMPTY : String := "Dataset está vazio ou não possui dados válidos"
def ERR_INSUFFICIENT : String := "Dados insuficientes para análise"

/-! ## `DataAnalyzer._validate_dataframe` (app.py lines 92-107)

`self.df.empty` is true when ANY axis has length 0 (pandas doc: "True if
DataFrame is entirely empty, meaning any of the axes are of length 0"), so
it fires for zero rows or zero columns.  Then columns beyond the cap are
dropped with a warning, then the `< 5` row check runs, then a warning (not
an error) if no numeric column remains. -/

def WARN_TRUNCATED : String := "Limitando análise às primeiras 50 colunas"
def WARN_NO_NUMERIC : String := "Nenhuma coluna numérica encontrada"

/-- The column-cap step: `self.df = self.df.iloc[:, :50]` when the frame
is wider than the cap, otherwise the frame is left alone. -/
def truncCols (df : DataFrame) : DataFrame :=
  if MAX_COLUMNS_FOR_ANALYSIS < df.ncols then
    { df with cols := df.cols.take MAX_COLUMNS_FOR_ANALYSIS }
  else df

def validate_dataframe (df : DataFrame) : Except String (DataFrame × List String) :=
  if df.nrows = 0 ∨ df.ncols = 0 then
    .error ERR_EMPTY
  else
    let warns :=
      if MAX_COLUMNS_FOR_ANALYSIS < df.ncols then [WARN_TRUNCATED] else []
    if (truncCols df).nrows < 5 then
      .error ERR_INSUFFICIENT
    else
      .ok (truncCols df,
        warns ++ (if (truncCols df).numericNames = [] then [WARN_NO_NUMERIC] else []))


/-! ## Numeric list helpers (the pandas/numpy primitives the code relies on) -/

def sumQ (l : List ℚ) : ℚ := l.foldr (· + ·) 0

def meanQ (l : List ℚ) : ℚ := sumQ l / l.length

/-- `Series.min()` (NaNs already dropped): minimum of a nonempty list,
0 on the empty list (where pandas would give NaN). -/
def minQ : List ℚ → ℚ
  | [] => 0
  | a :: as => as.foldl min a

/-- Sample variance with `ddof = 1` (`Series.std() ** 2`,
`Series.var()`): `Σ (x - mean)² / (n - 1)`. -/
def svarQ (l : List ℚ) : ℚ :=
  sumQ (l.map fun x => (x - meanQ l) ^ 2) / (l.length - 1 : ℚ)

/-- Stable insertion of `a` into a list sorted ascending by key `k`. -/
def insertLe {α : Type} (k : α → ℚ) (a : α) : List α → List α
  | [] => [a]
  | b :: bs => if k a ≤ k b then a :: b :: bs else b :: insertLe k a bs

/-- Stable sort ascending by key `k`.  Used for `Series.quantile`'s internal
order statistics, `sort_values` (tie order is unobserved by any claim) and —
with a negated key — Python's `sorted(..., reverse=True)`. -/
def sortLe {α : Type} (k : α → ℚ) : List α → List α
  | [] => []
  | a :: as => insertLe k a (sortLe k as)

/-- `Series.quantile(p)` with the default linear interpolation: with the
values sorted ascending and `h = p * (n - 1)`, the result is
`s[⌊h⌋] + (h - ⌊h⌋) * (s[⌊h⌋+1] - s[⌊h⌋])`. -/
def quantileQ (l : List ℚ) (p : ℚ) : ℚ :=
  let s := sortLe id l
  let h : ℚ := p * ((l.length : ℚ) - 1)
  let i : ℕ := (⌊h⌋).toNat
  match s.get? i, s.get? (i + 1) with
  | some a, some b => a + (h - (⌊h⌋ : ℚ)) * (b - a)
  | some a, none => a
  | none, _ => 0

/-! ## `DataAnalyzer.compute_correlation_analysis` (app.py lines 178-223)
and `_detect_multicollinearity` (lines 225-247)

`numeric_df = self.df[numeric_cols].dropna()` drops every row in which any
numeric column is missing; `numeric_df.corr()` is the Pearson matrix, whose
entry for a zero-variance column is NaN (pandas `nancorr` writes NaN whenever
`sqrt(ssqdmx * ssqdmy) == 0`, including on the diagonal).  A correlation `r`
is encoded as its signed square `r * |r|` (see the header comment); with
`s = Σ dx·dy`, `sxx = Σ dx²`, `syy = Σ dy²` the encoding of
`r = s / √(sxx·syy)` is `s·|s| / (sxx·syy)`. -/

/-- Deviations from the mean: `x - x.mean()`. -/
def devs (l : List ℚ) : List ℚ := l.map (· - meanQ l)

/-- `Σ xᵢ * yᵢ` over the zipped lists. -/
def sumProd (xs ys : List ℚ) : ℚ := sumQ ((xs.zip ys).map fun p => p.1 * p.2)

/-- `Σ (xᵢ - x̄)(yᵢ - ȳ)`, the Pearson numerator. -/
def sxy (xs ys : List ℚ) : ℚ := sumProd (devs xs) (devs ys)

/-- Pearson correlation of two aligned columns, encoded as its signed
square; `none` is pandas' NaN for a zero-variance operand. -/
def corrE (xs ys : List ℚ) : Option ℚ :=
  if sxy xs xs * sxy ys ys = 0 then none
  else some (sxy xs ys * |sxy xs ys| / (sxy xs xs * sxy ys ys))

/-- `abs(corr_val) > c` on the encoding (`c ≥ 0`); `abs(NaN) > c` is false
in Python, so `none` compares false. -/
def absCorrGt (o : Option ℚ) (c : ℚ) : Bool :=
  match o with
  | some v => decide (c ^ 2 < |v|)
  | none => false

namespace DataFrame

/-- One numeric cell of row `i`, as `df[numeric_cols]` sees it. -/
def numericRow (df : DataFrame) (i : ℕ) : List (Option ℚ) :=
  df.numericCols.map fun c => (c.cells.get? i).bind Cell.toNum

/-- `some` iff every entry is present (the row survives `dropna()`). -/
def allSome : List (Option ℚ) → Option (List ℚ)
  | [] => some []
  | none :: _ => none
  | some q :: rest => (allSome rest).map (q :: ·)

/-- `df[numeric_cols].dropna()`: the rows in which every numeric column
has a value, in index order. -/
def completeRows (df : DataFrame) : List (List ℚ) :=
  (List.range df.nrows).filterMap fun i => allSome (df.numericRow i)

/-- Column `j` of the complete-row table (`numeric_df.iloc[:, j]`). -/
def colData (df : DataFrame) (j : ℕ) : List ℚ :=
  df.completeRows.map fun r => r.getD j 0

/-- Entry `(i, j)` of `numeric_df.corr()`, in the signed-square encoding. -/
def corrMatrix (df : DataFrame) (i j : ℕ) : Option ℚ :=
  corrE (df.colData i) (df.colData j)

end DataFrame

/-- The upper-triangle index pairs `(i, j)`, `i < j < n`, in the order of
the source's nested `for i … for j in range(i+1, …)` loops. -/
def pairsUpper (n : ℕ) : List (ℕ × ℕ) :=
  ((List.range n).map fun i =>
    (List.range (n - (i + 1))).map fun k => (i, i + 1 + k)).flatten

/-- One entry of `strong_correlations`. -/
structure CorrPair where
  var1 : String
  var2 : String
  correlation : ℚ   -- signed-square encoding of the float stored
  strength : String
deriving Repr, DecidableEq

/-- The loop body: a pair is appended iff `abs(corr_val) > 0.5`, with
`strength = "forte" if abs(corr_val) > 0.7 else "moderada"`. -/
def strongEntry (df : DataFrame) (ij : ℕ × ℕ) : Option CorrPair :=
  match df.corrMatrix ij.1 ij.2 with
  | some v =>
      if CORRELATION_THRESHOLD ^ 2 < |v| then
        some { var1 := (df.numericNames).getD ij.1 ""
               var2 := (df.numericNames).getD ij.2 ""
               correlation := v
               strength := if (7/10 : ℚ) ^ 2 < |v| then "forte" else "moderada" }
      else none
  | none => none

/-- `strong_correlations` before sorting, in loop order. -/
def strongCorrs (df : DataFrame) : List CorrPair :=
  (pairsUpper df.numericNames.length).filterMap (strongEntry df)

/-- `sorted(strong_correlations, key=lambda x: abs(x['correlation']),
reverse=True)`: stable descending sort by `|r|`, i.e. ascending by the
negated encoded absolute value. -/
def strongSorted (df : DataFrame) : List CorrPair :=
  sortLe (fun e => -|e.correlation|) (strongCorrs df)

/-- One entry of `_detect_multicollinearity`'s `high_correlation_pairs`
(`correlation` stores `abs(corr_val)`, encoded). -/
def multiEntry (df : DataFrame) (ij : ℕ × ℕ) : Option (String × String × ℚ) :=
  match df.corrMatrix ij.1 ij.2 with
  | some v =>
      if (4/5 : ℚ) ^ 2 < |v| then
        some ((df.numericNames).getD ij.1 "", (df.numericNames).getD ij.2 "", |v|)
      else none
  | none => none

def multiPairs (df : DataFrame) : List (String × String × ℚ) :=
  (pairsUpper df.numericNames.length).filterMap (multiEntry df)

structure CorrResult where
  matrix : ℕ → ℕ → Option ℚ
  strong_correlations : List CorrPair
  high_correlation_pairs : List (String × String × ℚ)
  has_multicollinearity : Bool
  severity : String
  total_pairs : ℕ
  strong_pairs : ℕ

def compute_correlation_analysis (df : DataFrame) : Except String CorrResult :=
  if df.numericNames.length < 2 then
    .error "Necessário pelo menos 2 colunas numéricas"
  else if df.completeRows.length < 10 then
    .error "Dados insuficientes após remoção de valores faltantes"
  else
    .ok { matrix := df.corrMatrix
          strong_correlations := (strongSorted df).take 15
          high_correlation_pairs := multiPairs df
          has_multicollinearity := decide (0 < (multiPairs df).length)
          severity :=
            if 3 < (multiPairs df).length then "alta"
            else if 0 < (multiPairs df).length then "moderada" else "baixa"
          total_pairs := df.numericNames.length * (df.numericNames.length - 1) / 2
          strong_pairs := (strongCorrs df).length }

/-- A 10-row fixture with a constant numeric column `a` and a non-constant
numeric column `b`; it passes both correlation preconditions. -/
def dfConstCol : DataFrame :=
  { nrows := 10,
    cols := [{ name := "a", numeric := true,
               cells := [.num 1, .num 1, .num 1, .num 1, .num 1,
                         .num 1, .num 1, .num 1, .num 1, .num 1] },
             { name := "b", numeric := true,
               cells := [.num 0, .num 1, .num 2, .num 3, .num 4,
                         .num 5, .num 6, .num 7, .num 8, .num 9] }] }

/-! ## `DataAnalyzer.detect_anomalies` (app.py lines 249-313)

The Z-score test `abs((x - mean) / std) > 3` (`std` with pandas' default
`ddof=1`) is encoded without the square root as
`(x - mean)² > 3² * var`: equivalent when `var > 0`, and when `var = 0`
both flag nothing (`NaN > 3` is false in Python, and `0 > 0` here).
`IsolationForest` is an sklearn call, passed in as an oracle producing the
per-value flag mask. -/

def zscoreMask (data : List ℚ) (x : ℚ) : Bool :=
  decide (ANOMALY_ZSCORE_THRESHOLD ^ 2 * svarQ data < (x - meanQ data) ^ 2)

def iqrLower (data : List ℚ) : ℚ :=
  quantileQ data (1/4)
    - ANOMALY_IQR_MULTIPLIER * (quantileQ data (3/4) - quantileQ data (1/4))

def iqrUpper (data : List ℚ) : ℚ :=
  quantileQ data (3/4)
    + ANOMALY_IQR_MULTIPLIER * (quantileQ data (3/4) - quantileQ data (1/4))

def iqrMask (data : List ℚ) (x : ℚ) : Bool :=
  decide (x < iqrLower data) || decide (iqrUpper data < x)

structure AnomalyResult where
  column : String
  total_values : ℕ
  anomalies : List ℚ
  anomalies_count : ℕ
  anomalies_sample : List ℚ
  method : String
deriving Repr, DecidableEq

def detect_anomalies (isoForest : List ℚ → List Bool) (df : DataFrame)
    (column method : String) : Except String AnomalyResult :=
  if column ∉ df.numericNames then
    .error ("Coluna " ++ column ++ " não é numérica")
  else
    let data := ((df.getCol column).map Col.dropna).getD []
    if data.length < 10 then
      .error "Dados insuficientes para detecção de anomalias"
    else
      let anomalies : Option (List ℚ) :=
        if method = "zscore" then some (data.filter (zscoreMask data))
        else if method = "iqr" then some (data.filter (iqrMask data))
        else if method = "isolation_forest" then
          some ((data.zip (isoForest data)).filterMap
            fun p => if p.2 then some p.1 else none)
        else none
      match anomalies with
      | none => .error ("Método " ++ method ++ " não implementado")
      | some anoms =>
          .ok { column := column
                total_values := data.length
                anomalies := anoms
                anomalies_count := anoms.length
                anomalies_sample := anoms.take 10
                method := method }

/-! ## `DataAnalyzer.analyze_distribution` (app.py lines 388-438) and
`_classify_distribution` (lines 440-453)

`stats.shapiro`, `stats.kstest`, `stats.skew`, `stats.kurtosis` are scipy
calls, passed in as oracles.  The source stores
`float(shapiro_stat) if shapiro_stat else None`, so a (practically
impossible) statistic of exactly `0.0` would also be reported as `None`;
`pyTruthy` models that Python truthiness test. -/

def classify_distribution (skewness kurtosis : ℚ) : String :=
  if |skewness| < 1/2 ∧ |kurtosis| < 1/2 then "normal"
  else if 1/2 < skewness then "positivamente assimétrica"
  else if skewness < -(1/2) then "negativamente assimétrica"
  else if 1/2 < kurtosis then "leptocúrtica (picos altos)"
  else if kurtosis < -(1/2) then "platicúrtica (picos baixos)"
  else "distribuição mista"

/-- `float(v) if v else None` applied to an optional float. -/
def pyTruthy (o : Option ℚ) : Option ℚ :=
  o.bind fun v => if v = 0 then none else some v

structure DistResult where
  column : String
  distribution_type : String
  skewness : ℚ
  kurtosis : ℚ
  shapiro_statistic : Option ℚ
  shapiro_p : Option ℚ
  ks_statistic : ℚ
  ks_p : ℚ
deriving Repr, DecidableEq

def analyze_distribution (shapiro ks : List ℚ → ℚ × ℚ) (skew kurt : List ℚ → ℚ)
    (df : DataFrame) (column : String) : Except String DistResult :=
  if column ∉ df.numericNames then
    .error ("Coluna " ++ column ++ " não é numérica")
  else
    let data := ((df.getCol column).map Col.dropna).getD []
    if data.length < 10 then
      .error "Dados insuficientes para análise de distribuição"
    else
      let sh : Option ℚ × Option ℚ :=
        if data.length ≤ 5000 then (some (shapiro data).1, some (shapiro data).2)
        else (none, none)
      .ok { column := column
            distribution_type := classify_distribution (skew data) (kurt data)
            skewness := skew data
            kurtosis := kurt data
            shapiro_statistic := pyTruthy sh.1
            shapiro_p := pyTruthy sh.2
            ks_statistic := (ks data).1
            ks_p := (ks data).2 }

/-! ## `DataAnalyzer.temporal_analysis` (app.py lines 315-386)

For a numeric-dtype time column the code builds
`__time_elapsed = values - values.min()` (NaNs dropped, never any epoch
conversion), sorts ascending by it, and regresses against it; for any other
dtype it parses with `pd.to_datetime(errors='coerce')` (the `parse` oracle,
`none` = NaT, ordered by its rational timestamp), regresses against the row
index, and computes monthly means when more than 50 rows remain.
`stats.linregress` is a scipy call (oracle `linreg`, returning slope,
r-value and p-value). -/

/-- Numeric-time branch rows: `(t - t.min(), value)` for the rows whose
time is present, in original order (before sorting). -/
def elapsedPairs (tc vc : Col) : List (ℚ × Cell) :=
  let m := minQ tc.dropna
  (tc.cells.zip vc.cells).filterMap fun p => (p.1.toNum).map fun q => (q - m, p.2)

/-- Calendar branch rows: `(parsed timestamp, value)` for parseable times. -/
def parsedPairs (parse : Cell → Option ℚ) (tc vc : Col) : List (ℚ × Cell) :=
  (tc.cells.zip vc.cells).filterMap fun p => (parse p.1).map fun q => (q, p.2)

/-- `Series.rolling(window=w, min_periods=1).mean()`: mean of the
non-missing values among the last `w` positions (none present → NaN). -/
def rollingMean (w : ℕ) (cells : List Cell) : List (Option ℚ) :=
  (List.range cells.length).map fun i =>
    let win := ((cells.take (i + 1)).drop (i + 1 - w)).filterMap Cell.toNum
    if win.isEmpty then none else some (meanQ win)

/-- `groupby('month')[value_col].mean().to_dict()`: month keys ascending,
mean over the non-missing values of each group. -/
def monthlyAvg (month : ℚ → ℕ) (rows : List (ℚ × Cell)) : List (ℕ × ℚ) :=
  let ms := sortLe (fun m : ℕ => (m : ℚ)) ((rows.map fun p => month p.1).dedup)
  ms.map fun m =>
    (m, meanQ (rows.filterMap fun p =>
      if month p.1 = m then p.2.toNum else none))

structure TemporalOk where
  rows : List (ℚ × Cell)
  time_label : String
  is_numeric_time : Bool
  window_size : ℕ
  moving_avg : List (Option ℚ)
  reg_x : List ℚ
  slope : ℚ
  r_squared : ℚ
  p_value : ℚ
  trend_direction : String
  seasonal_pattern : Option (List (ℕ × ℚ))
  data_points : ℕ

def temporal_analysis (parse : Cell → Option ℚ) (month : ℚ → ℕ)
    (linreg : List ℚ → List Cell → ℚ × ℚ × ℚ) (df : DataFrame)
    (time_col value_col : String) : Except String TemporalOk :=
  match df.getCol time_col, df.getCol value_col with
  | some tc, some vc =>
      if value_col ∉ df.numericNames then .error "Colunas inválidas"
      else
        let sortedRows :=
          sortLe (·.1) (if tc.numeric then elapsedPairs tc vc
                        else parsedPairs parse tc vc)
        let n := sortedRows.length
        if n < 10 then .error "Dados insuficientes para análise temporal"
        else
          let w := min 30 (max 3 (n / 10))
          let xs := if tc.numeric then sortedRows.map (·.1)
                    else (List.range n).map fun i => (i : ℚ)
          let ys := sortedRows.map (·.2)
          let fit := linreg xs ys
          .ok { rows := sortedRows
                time_label := if tc.numeric then "Seconds since first transaction"
                              else time_col
                is_numeric_time := tc.numeric
                window_size := w
                moving_avg := rollingMean w ys
                reg_x := xs
                slope := fit.1
                r_squared := fit.2.1 ^ 2
                p_value := fit.2.2
                trend_direction :=
                  if 0 < fit.1 then "crescente"
                  else if fit.1 < 0 then "decrescente" else "estável"
                seasonal_pattern :=
                  if tc.numeric then none
                  else if 50 < n then some (monthlyAvg month sortedRows) else none
                data_points := n }
  | _, _ => .error "Colunas inválidas"

/-! ## `DataAnalyzer._extract_metadata` (app.py lines 109-151)

Per-column statistics are computed for `numeric_columns[:15]` only; the
scipy/pandas computation of one column's nine scalars is the oracle
`statsOf`, returning `none` when it raises (the `except` branch that logs
a warning and omits the entry). -/

structure ColStats where
  mean : ℚ
  std : ℚ
  min : ℚ
  max : ℚ
  median : ℚ
  q25 : ℚ
  q75 : ℚ
  skewness : ℚ
  kurtosis : ℚ
deriving Repr, DecidableEq

/-- `metadata["sample_stats"]` as an association list in column order. -/
def sample_stats (statsOf : List ℚ → Option ColStats) (df : DataFrame) :
    List (String × ColStats) :=
  (df.numericCols.take 15).filterMap fun c =>
    let data := c.dropna
    if 0 < data.length then (statsOf data).map fun s => (c.name, s) else none

structure Metadata where
  shape : ℕ × ℕ
  columns : List String
  numeric_cols : List String
  sample_stats : List (String × ColStats)
deriving Repr, DecidableEq

def extract_metadata (statsOf : List ℚ → Option ColStats) (df : DataFrame) :
    Metadata :=
  { shape := (df.nrows, df.ncols)
    columns := df.cols.map (·.name)
    numeric_cols := df.numericNames
    sample_stats := sample_stats statsOf df }

/-! ## Session memory: `generate_session_id` (app.py lines 951-953) and
`MemoryManager` (lines 588-671)

`hashlib.md5(...).hexdigest()` is the oracle `md5hex` (a pure function of
the byte content; that its output is a 32-character hex string enters the
corresponding statement as a hypothesis).  The filesystem is `fs : path ↦
content-if-readable`, and `json.load`/`json.dump` is the oracle
`parseJson` / a write outcome `Except String Unit`. -/

structure QueryEntry where
  timestamp : String
  question : String
  answer : String
  chart_type : Option String
deriving Repr, DecidableEq

structure InsightEntry where
  timestamp : String
  insight : String
  category : String
deriving Repr, DecidableEq

structure ConclusionEntry where
  timestamp : String
  text : String
deriving Repr, DecidableEq

structure Memory where
  queries : List QueryEntry
  insights : List InsightEntry
  conclusions : List ConclusionEntry
  created_at : String
  selected_model : Option String
deriving Repr, DecidableEq

/-- The record `_load_memory` builds when nothing (valid) is stored. -/
def freshMemory (now : String) : Memory :=
  { queries := [], insights := [], conclusions := []
    created_at := now, selected_model := none }

/-- `hashlib.md5(file_content).hexdigest()[:12]`.  A Python `str` is
modelled as its character sequence, so the slice `[:12]` is `List.take 12`. -/
def generate_session_id (md5hex : List ℕ → List Char) (file_content : List ℕ) :
    List Char :=
  (md5hex file_content).take 12

/-- `ANALYSIS_MEMORY_DIR / f"session_{session_id}.json"` (the fixed
directory prefix is elided; the name is what varies). -/
def memoryFileName (session_id : List Char) : List Char :=
  "session_".toList ++ session_id ++ ".json".toList

/-- `MemoryManager._load_memory`: stored record when present and parseable,
fresh record otherwise (`except: pass`). -/
def load_memory (fileContent : Option String)
    (parseJson : String → Option Memory) (now : String) : Memory :=
  match fileContent with
  | some s =>
      match parseJson s with
      | some m => m
      | none => freshMemory now
  | none => freshMemory now

structure MemoryManager where
  session_id : List Char
  memory_file : List Char
  memory : Memory
deriving Repr, DecidableEq

def MemoryManager.init (fs : List Char → Option String)
    (parseJson : String → Option Memory) (now : String)
    (session_id : List Char) : MemoryManager :=
  { session_id := session_id
    memory_file := memoryFileName session_id
    memory := load_memory (fs (memoryFileName session_id)) parseJson now }

/-- In-memory manager state plus the warnings `st.warning` has shown. -/
structure MMState where
  memory : Memory
  warnings : List String
deriving Repr, DecidableEq

/-- `MemoryManager._persist`: `json.dump` of the whole record; on failure a
warning is shown and nothing else happens (the memory is not touched). -/
def persist (writeResult : Except String Unit) (s : MMState) : MMState :=
  match writeResult with
  | .ok _ => s
  | .error e => { s with warnings := s.warnings ++ ["Erro ao salvar memória: " ++ e] }

def save_query (writeResult : Except String Unit) (now question answer : String)
    (chart_type : Option String) (s : MMState) : MMState :=
  persist writeResult
    { s with memory :=
        { s.memory with queries := s.memory.queries ++
            [{ timestamp := now, question := question, answer := answer
               chart_type := chart_type }] } }

def save_insight (writeResult : Except String Unit) (now insight category : String)
    (s : MMState) : MMState :=
  persist writeResult
    { s with memory :=
        { s.memory with insights := s.memory.insights ++
            [{ timestamp := now, insight := insight, category := category }] } }

def save_conclusion (writeResult : Except String Unit) (now conclusion : String)
    (s : MMState) : MMState :=
  persist writeResult
    { s with memory :=
        { s.memory with conclusions := s.memory.conclusions ++
            [{ timestamp := now, text := conclusion }] } }

def save_selected_model (writeResult : Except String Unit) (model_name : String)
    (s : MMState) : MMState :=
  persist writeResult
    { s with memory := { s.memory with selected_model := some model_name } }

/-! ## `LLMQueryProcessor.interpret_query` (app.py lines 717-789)

The OpenAI chat call is the oracle `complete`: an exception (`.error`), a
reply that is already a structured object (`.dict`), or reply text
(`.text`); `json.loads` is the oracle `parseJson`. -/

structure Decision where
  analysis_type : String
  parameters : List (String × String)
  reasoning : String
deriving Repr, DecidableEq

inductive LLMReply where
  | dict (d : Decision)
  | text (s : String)
deriving Repr, DecidableEq

def interpret_query (complete : Except String LLMReply)
    (parseJson : String → Option Decision) : Decision :=
  match complete with
  | .error e =>
      { analysis_type := "summary", parameters := []
        reasoning := "Fallback devido a erro: " ++ e }
  | .ok (.dict d) => d
  | .ok (.text raw) =>
      match parseJson raw with
      | some d => d
      | none =>
          { analysis_type := "summary", parameters := []
            reasoning := "Fallback: resposta não-JSON" }

/-! ## Helper lemmas about the list primitives -/

theorem nrows_truncCols (df : DataFrame) : (truncCols df).nrows = df.nrows := by
  unfold truncCols
  split <;> rfl

theorem cols_truncCols (df : DataFrame) :
    (truncCols df).cols = df.cols.take MAX_COLUMNS_FOR_ANALYSIS := by
  unfold truncCols
  split
  · rfl
  · rename_i h
    exact (List.take_of_length_le (by simpa [DataFrame.ncols] using le_of_not_lt h)).symm

theorem mem_insertLe {α : Type} (k : α → ℚ) (a x : α) (l : List α) :
    x ∈ insertLe k a l ↔ x = a ∨ x ∈ l := by
  induction l with
  | nil => simp [insertLe]
  | cons b bs ih =>
      by_cases h : k a ≤ k b
      · simp [insertLe, h]
      · simp [insertLe, h, ih]
        tauto

theorem mem_sortLe {α : Type} (k : α → ℚ) (x : α) (l : List α) :
    x ∈ sortLe k l ↔ x ∈ l := by
  induction l with
  | nil => simp [sortLe]
  | cons a as ih => simp [sortLe, mem_insertLe, ih]

theorem pairwise_insertLe {α : Type} (k : α → ℚ) (a : α) (l : List α)
    (h : l.Pairwise fun x y => k x ≤ k y) :
    (insertLe k a l).Pairwise fun x y => k x ≤ k y := by
  induction l with
  | nil => simp [insertLe]
  | cons b bs ih =>
      rcases List.pairwise_cons.mp h with ⟨hb, hbs⟩
      by_cases hab : k a ≤ k b
      · rw [insertLe, if_pos hab]
        refine List.pairwise_cons.mpr ⟨?_, h⟩
        intro y hy
        rcases List.mem_cons.mp hy with rfl | hy
        · exact hab
        · exact le_trans hab (hb y hy)
      · rw [insertLe, if_neg hab]
        refine List.pairwise_cons.mpr ⟨?_, ih hbs⟩
        intro y hy
        rcases (mem_insertLe k a y bs).mp hy with rfl | hy
        · exact le_of_lt (lt_of_not_le hab)
        · exact hb y hy

theorem pairwise_sortLe {α : Type} (k : α → ℚ) (l : List α) :
    (sortLe k l).Pairwise fun x y => k x ≤ k y := by
  induction l with
  | nil => simp [sortLe]
  | cons a as ih => exact pairwise_insertLe k a _ ih

theorem foldl_min_le_init (l : List ℚ) : ∀ a : ℚ, l.foldl min a ≤ a := by
  induction l with
  | nil => intro a; simp
  | cons b bs ih =>
      intro a
      simpa using le_trans (ih (min a b)) (min_le_left a b)

theorem foldl_min_le_mem (l : List ℚ) :
    ∀ a : ℚ, ∀ x ∈ l, l.foldl min a ≤ x := by
  induction l with
  | nil => intro a x hx; simp at hx
  | cons b bs ih =>
      intro a x hx
      rcases List.mem_cons.mp hx with rfl | hx
      · simpa using le_trans (foldl_min_le_init bs (min a x)) (min_le_right a x)
      · simpa using ih (min a b) x hx

theorem foldl_min_mem (l : List ℚ) :
    ∀ a : ℚ, l.foldl min a = a ∨ l.foldl min a ∈ l := by
  induction l with
  | nil => intro a; simp
  | cons b bs ih =>
      intro a
      rcases ih (min a b) with h | h
      · simp only [List.foldl_cons]
        rcases min_choice a b with hm | hm
        · left; rw [h, hm]
        · right; rw [h, hm]; exact List.mem_cons_self b bs
      · right; right; simpa using h

theorem minQ_mem : ∀ (l : List ℚ), l ≠ [] → minQ l ∈ l
  | [], h => absurd rfl h
  | a :: as, _ => by
      simp only [minQ]
      rcases foldl_min_mem as a with h | h
      · rw [h]; exact List.mem_cons_self a as
      · exact List.mem_cons_of_mem a h

theorem minQ_le : ∀ (l : List ℚ), ∀ x ∈ l, minQ l ≤ x
  | [], x, h => by simp at h
  | a :: as, x, h => by
      simp only [minQ]
      rcases List.mem_cons.mp h with rfl | h
      · exact foldl_min_le_init as x
      · exact foldl_min_le_mem as a x h

/-! # Claims -/

/-- Claim C5: for every question/metadata/context (and hence every oracle
outcome), `interpret_query` is total — it returns a `Decision` and never
raises — and whenever the completion call fails, or the reply text cannot
be parsed as JSON, the decision is exactly the fallback
`{analysis_type := "summary", parameters := {}}` with an explanatory
rationale. -/
theorem C5_interpret_query_fallback :
    (∀ (parseJson : String → Option Decision) (e : String),
      interpret_query (.error e) parseJson =
        { analysis_type := "summary", parameters := []
          reasoning := "Fallback devido a erro: " ++ e }) ∧
    (∀ (parseJson : String → Option Decision) (raw : String),
      parseJson raw = none →
      interpret_query (.ok (.text raw)) parseJson =
        { analysis_type := "summary", parameters := []
          reasoning := "Fallback: resposta não-JSON" }) := by
  refine ⟨fun _ _ => rfl, fun parseJson raw h => ?_⟩
  simp [interpret_query, h]

/-- Witness for C5 at a concrete failing parse. -/
theorem C5_interpret_query_fallback_witness :
    interpret_query (.ok (.text "not json")) (fun _ => none) =
      { analysis_type := "summary", parameters := []
        reasoning := "Fallback: resposta não-JSON" } :=
  C5_interpret_query_fallback.2 (fun _ => none) "not json" rfl

/-- Claim C10: `_load_memory` is total for every session: a missing file,
or an existing file whose content fails to parse as JSON, yields the fresh
empty record (empty queries/insights/conclusions, a creation timestamp,
null selected model) instead of an error; the corrupt record is abandoned. -/
theorem C10_load_memory_total :
    (∀ (parseJson : String → Option Memory) (now : String),
      load_memory none parseJson now = freshMemory now) ∧
    (∀ (parseJson : String → Option Memory) (now content : String),
      parseJson content = none →
      load_memory (some content) parseJson now = freshMemory now) ∧
    (∀ now : String,
      freshMemory now =
        { queries := [], insights := [], conclusions := []
          created_at := now, selected_model := none }) := by
  refine ⟨fun _ _ => rfl, fun parseJson now content h => ?_, fun _ => rfl⟩
  simp [load_memory, h]

/-- Witness for C10 at a concrete corrupt store. -/
theorem C10_load_memory_total_witness :
    load_memory (some "corrupt data") (fun _ => none) "2024-01-01" =
      freshMemory "2024-01-01" :=
  C10_load_memory_total.2.1 (fun _ => none) "2024-01-01" "corrupt data" rfl

/-- Claim C8: every memory mutation (`save_query`, `save_insight`,
`save_conclusion`, `save_selected_model`) applies its append/update to the
in-memory record, and the mutated in-memory state is identical whether the
whole-record persistence write succeeds or fails — a failure only appends a
warning, never rolls the mutation back. -/
theorem C8_mutate_then_persist :
    ∀ (w : Except String Unit) (s : MMState) (now q a cat model : String)
      (ct : Option String),
      (save_query w now q a ct s).memory =
        { s.memory with queries := s.memory.queries ++
            [{ timestamp := now, question := q, answer := a, chart_type := ct }] } ∧
      (save_insight w now q cat s).memory =
        { s.memory with insights := s.memory.insights ++
            [{ timestamp := now, insight := q, category := cat }] } ∧
      (save_conclusion w now q s).memory =
        { s.memory with conclusions := s.memory.conclusions ++
            [{ timestamp := now, text := q }] } ∧
      (save_selected_model w model s).memory =
        { s.memory with selected_model := some model } ∧
      (∀ e, w = .error e →
        (save_query w now q a ct s).warnings =
          s.warnings ++ ["Erro ao salvar memória: " ++ e]) := by
  intro w s now q a cat model ct
  cases w with
  | ok u =>
      refine ⟨rfl, rfl, rfl, rfl, ?_⟩
      intro e he
      cases he
  | error e0 =>
      refine ⟨rfl, rfl, rfl, rfl, ?_⟩
      intro e he
      cases he
      rfl

/-- Witness for C8 at a concrete failing write. -/
theorem C8_mutate_then_persist_witness :
    (save_query (.error "disk full") "t0" "q?" "a." none
        { memory := freshMemory "t0", warnings := [] }).memory =
      { freshMemory "t0" with queries :=
          [{ timestamp := "t0", question := "q?", answer := "a.", chart_type := none }] } ∧
    (save_query (.error "disk full") "t0" "q?" "a." none
        { memory := freshMemory "t0", warnings := [] }).warnings =
      ["Erro ao salvar memória: " ++ "disk full"] := by
  have h := C8_mutate_then_persist (.error "disk full")
      { memory := freshMemory "t0", warnings := [] } "t0" "q?" "a." "cat" "m" none
  exact ⟨h.1, h.2.2.2.2 "disk full" rfl⟩

/-- Claim C7: the session identifier is a deterministic, fixed-length
function of the uploaded bytes alone — byte-identical uploads get the same
identifier (12 characters, given that `hexdigest()` returns 32) and resolve
to the same record file, and a `MemoryManager` built from that identifier
loads the already-stored record, so an identical re-upload resumes the
existing session rather than starting a new one. -/
theorem C7_session_id_deterministic :
    ∀ (md5hex : List ℕ → List Char) (c₁ c₂ : List ℕ), c₁ = c₂ →
      generate_session_id md5hex c₁ = generate_session_id md5hex c₂ ∧
      memoryFileName (generate_session_id md5hex c₁) =
        memoryFileName (generate_session_id md5hex c₂) ∧
      ((md5hex c₁).length = 32 → (generate_session_id md5hex c₁).length = 12) ∧
      (∀ (fs : List Char → Option String) (parseJson : String → Option Memory)
          (now stored : String) (m : Memory),
        fs (memoryFileName (generate_session_id md5hex c₁)) = some stored →
        parseJson stored = some m →
        (MemoryManager.init fs parseJson now (generate_session_id md5hex c₂)).memory
          = m) := by
  intro md5hex c₁ c₂ h
  subst h
  refine ⟨rfl, rfl, ?_, ?_⟩
  · intro hlen
    simp [generate_session_id, hlen]
  · intro fs parseJson now stored m hfs hparse
    simp [MemoryManager.init, load_memory, hfs, hparse]

/-- Witness for C7: a concrete digest oracle, upload, and stored record. -/
theorem C7_session_id_deterministic_witness :
    ("0123456789abcdef0123456789abcdef".toList.take 12).length = 12 ∧
    (MemoryManager.init
        (fun p => if p = memoryFileName (generate_session_id
            (fun _ => "0123456789abcdef0123456789abcdef".toList) [10, 20, 30])
          then some "stored" else none)
        (fun s => if s = "stored" then some (freshMemory "t1") else none)
        "t2"
        (generate_session_id
          (fun _ => "0123456789abcdef0123456789abcdef".toList) [10, 20, 30])).memory
      = freshMemory "t1" := by
  have h := C7_session_id_deterministic
      (fun _ => "0123456789abcdef0123456789abcdef".toList) [10, 20, 30] [10, 20, 30] rfl
  refine ⟨h.2.2.1 (by decide), ?_⟩
  exact h.2.2.2 _ _ "t2" "stored" (freshMemory "t1") (by simp) (by simp)

/-- Counterexample to claim C6 as stated: the claim says construction fails
exactly when the dataset has fewer than 5 rows (zero rows included), but
`self.df.empty` is also true for a frame with rows and zero columns
(pandas: "any of the axes are of length 0"), so a 5-row, 0-column dataset
is rejected even though it has at least 5 rows. -/
theorem C6_counterexample :
    validate_dataframe { nrows := 5, cols := [] } = .error ERR_EMPTY ∧
    ¬ ({ nrows := 5, cols := [] } : DataFrame).nrows < 5 := by
  exact ⟨rfl, by decide⟩

/-- Claim C6 (amended): construction fails with the validation error
exactly when the dataset has zero rows, zero columns, or fewer than 5 rows
(the row checks running on the column-truncated frame, whose row count
truncation does not change); a dataset that merely exceeds the 50-column
cap is not rejected — it is truncated to its first 50 columns and, in that
case, a truncation warning is emitted. -/
theorem C6_validate_amended :
    ∀ df : DataFrame,
      ((∃ e, validate_dataframe df = .error e) ↔ df.nrows < 5 ∨ df.ncols = 0) ∧
      (df.nrows = 0 → validate_dataframe df = .error ERR_EMPTY) ∧
      (0 < df.ncols → 5 ≤ df.nrows →
        ∃ warns,
          validate_dataframe df = .ok (truncCols df, warns) ∧
          (truncCols df).cols = df.cols.take MAX_COLUMNS_FOR_ANALYSIS ∧
          (truncCols df).nrows = df.nrows ∧
          (MAX_COLUMNS_FOR_ANALYSIS < df.ncols → WARN_TRUNCATED ∈ warns)) := by
  intro df
  refine ⟨?_, ?_, ?_⟩
  · constructor
    · rintro ⟨e, he⟩
      by_contra hcon
      push_neg at hcon
      obtain ⟨hrows, hcols⟩ := hcon
      rw [validate_dataframe, if_neg (by omega)] at he
      simp only [if_neg (by rw [nrows_truncCols]; omega : ¬ (truncCols df).nrows < 5)]
        at he
      exact absurd he (by simp)
    · intro h
      rcases h with h | h
      · by_cases hc : df.ncols = 0
        · exact ⟨ERR_EMPTY, by rw [validate_dataframe, if_pos (Or.inr hc)]⟩
        · by_cases hr : df.nrows = 0
          · exact ⟨ERR_EMPTY, by rw [validate_dataframe, if_pos (Or.inl hr)]⟩
          · refine ⟨ERR_INSUFFICIENT, ?_⟩
            rw [validate_dataframe, if_neg (by omega)]
            simp only [if_pos (by rw [nrows_truncCols]; omega :
              (truncCols df).nrows < 5)]
      · exact ⟨ERR_EMPTY, by rw [validate_dataframe, if_pos (Or.inr h)]⟩
  · intro h
    rw [validate_dataframe, if_pos (Or.inl h)]
  · intro hc hr
    refine ⟨(if MAX_COLUMNS_FOR_ANALYSIS < df.ncols then [WARN_TRUNCATED] else []) ++
        (if (truncCols df).numericNames = [] then [WARN_NO_NUMERIC] else []),
      ?_, cols_truncCols df, nrows_truncCols df, ?_⟩
    · rw [validate_dataframe, if_neg (by omega)]
      simp only [if_neg (by rw [nrows_truncCols]; omega : ¬ (truncCols df).nrows < 5)]
    · intro hwide
      simp [if_pos hwide]

/-- Witness for C6 (amended) at a concrete 5-row, 1-column dataset. -/
theorem C6_validate_amended_witness :
    ∃ warns,
      validate_dataframe
          { nrows := 5,
            cols := [{ name := "a", numeric := true,
                       cells := [.num 1, .num 2, .num 3, .num 4, .num 5] }] } =
        .ok (truncCols
          { nrows := 5,
            cols := [{ name := "a", numeric := true,
                       cells := [.num 1, .num 2, .num 3, .num 4, .num 5] }] }, warns) := by
  obtain ⟨warns, hok, -⟩ := (C6_validate_amended
      { nrows := 5,
        cols := [{ name := "a", numeric := true,
                   cells := [.num 1, .num 2, .num 3, .num 4, .num 5] }] }).2.2
      (by decide) (by decide)
  exact ⟨warns, hok⟩

/-- Claim C9: whatever the dataset and however the per-column statistics
computation behaves, the metadata's `sample_stats` holds entries for at
most the first 15 numeric columns (a fixed cap), each entry is the bounded
record of nine precomputed scalars (never column contents), and an entry
for a column is present exactly when that column is among the first 15
numeric ones, has data after `dropna`, and its own statistics computation
succeeded — one column's failure only omits that column's entry and cannot
abort profiling or disturb the entries of the other columns. -/
theorem C9_metadata_stats_capped :
    ∀ (statsOf : List ℚ → Option ColStats) (df : DataFrame),
      (extract_metadata statsOf df).sample_stats.length ≤ 15 ∧
      (∀ p ∈ (extract_metadata statsOf df).sample_stats,
        p.1 ∈ df.numericNames.take 15) ∧
      (∀ (name : String) (s : ColStats),
        (name, s) ∈ (extract_metadata statsOf df).sample_stats ↔
          ∃ c, c ∈ df.numericCols.take 15 ∧ c.name = name ∧
            0 < c.dropna.length ∧ statsOf c.dropna = some s) := by
  intro statsOf df
  have hbody : ∀ (c : Col) (name : String) (s : ColStats),
      ((if 0 < c.dropna.length then (statsOf c.dropna).map fun s => (c.name, s)
        else none) = some (name, s)) ↔
        (c.name = name ∧ 0 < c.dropna.length ∧ statsOf c.dropna = some s) := by
    intro c name s
    by_cases h : 0 < c.dropna.length
    · simp only [if_pos h, Option.map_eq_some']
      constructor
      · rintro ⟨s', hs', heq⟩
        obtain ⟨rfl, rfl⟩ := Prod.mk.injEq .. ▸ heq
        rcases Prod.mk.injEq .. ▸ heq with ⟨h1, h2⟩
        exact ⟨h1.symm, h, by rw [hs']⟩
      · rintro ⟨rfl, -, hs⟩
        exact ⟨s, hs, rfl⟩
    · simp only [if_neg h]
      constructor
      · intro hfalse
        cases hfalse
      · rintro ⟨-, hlen, -⟩
        exact absurd hlen h
  refine ⟨?_, ?_, ?_⟩
  · calc (extract_metadata statsOf df).sample_stats.length
        ≤ (df.numericCols.take 15).length :=
          List.length_filterMap_le _ _
      _ ≤ 15 := List.length_take_le _ _
  · rintro ⟨name, s⟩ hp
    simp only [extract_metadata, sample_stats, List.mem_filterMap] at hp
    obtain ⟨c, hc, hbody'⟩ := hp
    obtain ⟨hname, -, -⟩ := (hbody c name s).mp hbody'
    simp only [DataFrame.numericNames, ← List.map_take]
    exact List.mem_map.mpr ⟨c, hc, hname⟩
  · intro name s
    simp only [extract_metadata, sample_stats, List.mem_filterMap]
    constructor
    · rintro ⟨c, hc, hbody'⟩
      exact ⟨c, hc, (hbody c name s).mp hbody'⟩
    · rintro ⟨c, hc, hprops⟩
      exact ⟨c, hc, (hbody c name s).mpr hprops⟩

/-- Witness for C9: on a concrete two-column dataset whose first column's
statistics computation fails, the second column's entry is present and the
first's is omitted. -/
theorem C9_metadata_stats_capped_witness :
    ("b", ({ mean := 2, std := 1, min := 1, max := 3, median := 2, q25 := 1,
             q75 := 3, skewness := 0, kurtosis := 0 } : ColStats)) ∈
      (extract_metadata
        (fun data => if data.length = 3 then
            some { mean := 2, std := 1, min := 1, max := 3, median := 2, q25 := 1,
                   q75 := 3, skewness := 0, kurtosis := 0 }
          else none)
        { nrows := 3,
          cols := [{ name := "a", numeric := true, cells := [.num 7, .null, .null] },
                   { name := "b", numeric := true,
                     cells := [.num 1, .num 2, .num 3] }] }).sample_stats := by
  refine ((C9_metadata_stats_capped _ _).2.2 "b" _).mpr
    ⟨{ name := "b", numeric := true, cells := [.num 1, .num 2, .num 3] }, ?_, rfl, ?_, ?_⟩
  · simp [DataFrame.numericCols, List.filter]
  · simp [Col.dropna, Cell.toNum, List.filterMap]
  · simp [Col.dropna, Cell.toNum, List.filterMap]

/-- Claim C3: for every numeric column with at least 10 values, a successful
`analyze_distribution` omits the Shapiro-Wilk statistic and p-value (both
`None`) whenever the sample exceeds 5000 values and reports them only for
samples of at most 5000 values; and the distribution label is
`_classify_distribution` of the sample's skewness and kurtosis, which
checks its `±0.5` threshold conditions in the fixed source order and always
lands in the fixed six-label set. -/
theorem C3_distribution_classification :
    ∀ (shapiro ks : List ℚ → ℚ × ℚ) (skew kurt : List ℚ → ℚ) (df : DataFrame)
      (column : String) (data : List ℚ) (r : DistResult),
      data = ((df.getCol column).map Col.dropna).getD [] →
      analyze_distribution shapiro ks skew kurt df column = .ok r →
      ((5000 < data.length → r.shapiro_statistic = none ∧ r.shapiro_p = none) ∧
       (r.shapiro_statistic ≠ none → data.length ≤ 5000) ∧
       (data.length ≤ 5000 → (shapiro data).1 ≠ 0 →
         r.shapiro_statistic = some (shapiro data).1) ∧
       r.distribution_type = classify_distribution (skew data) (kurt data)) ∧
      (∀ s k : ℚ,
        (|s| < 1/2 ∧ |k| < 1/2 → classify_distribution s k = "normal") ∧
        (¬(|s| < 1/2 ∧ |k| < 1/2) → 1/2 < s →
          classify_distribution s k = "positivamente assimétrica") ∧
        (¬(|s| < 1/2 ∧ |k| < 1/2) → ¬(1/2 < s) → s < -(1/2) →
          classify_distribution s k = "negativamente assimétrica") ∧
        (¬(|s| < 1/2 ∧ |k| < 1/2) → ¬(1/2 < s) → ¬(s < -(1/2)) → 1/2 < k →
          classify_distribution s k = "leptocúrtica (picos altos)") ∧
        (¬(|s| < 1/2 ∧ |k| < 1/2) → ¬(1/2 < s) → ¬(s < -(1/2)) → ¬(1/2 < k) →
          k < -(1/2) → classify_distribution s k = "platicúrtica (picos baixos)") ∧
        (¬(|s| < 1/2 ∧ |k| < 1/2) → ¬(1/2 < s) → ¬(s < -(1/2)) → ¬(1/2 < k) →
          ¬(k < -(1/2)) → classify_distribution s k = "distribuição mista") ∧
        classify_distribution s k ∈
          ["normal", "positivamente assimétrica", "negativamente assimétrica",
           "leptocúrtica (picos altos)", "platicúrtica (picos baixos)",
           "distribuição mista"]) := by
  intro shapiro ks skew kurt df column data r hdata hok
  constructor
  · rw [analyze_distribution] at hok
    by_cases h1 : column ∉ df.numericNames
    · rw [if_pos h1] at hok
      cases hok
    · rw [if_neg h1] at hok
      simp only [← hdata] at hok
      by_cases h2 : data.length < 10
      · rw [if_pos h2] at hok
        cases hok
      · rw [if_neg h2] at hok
        have hr := (Except.ok.inj hok).symm
        subst hr
        by_cases h3 : data.length ≤ 5000
        · refine ⟨fun hbig => absurd h3 (by omega), fun _ => h3, fun _ hnz => ?_, rfl⟩
          simp [if_pos h3, pyTruthy, hnz]
        · refine ⟨fun _ => ?_, fun hne => ?_, fun hle _ => absurd hle h3, rfl⟩
          · simp [if_neg h3, pyTruthy]
          · exact absurd (by simp [if_neg h3, pyTruthy]) hne
  · intro s k
    refine ⟨?_, ?_, ?_, ?_, ?_, ?_, ?_⟩
    · intro h; rw [classify_distribution, if_pos h]
    · intro hn h; rw [classify_distribution, if_neg hn, if_pos h]
    · intro hn h2 h; rw [classify_distribution, if_neg hn, if_neg h2, if_pos h]
    · intro hn h2 h3 h
      rw [classify_distribution, if_neg hn, if_neg h2, if_neg h3, if_pos h]
    · intro hn h2 h3 h4 h
      rw [classify_distribution, if_neg hn, if_neg h2, if_neg h3, if_neg h4, if_pos h]
    · intro hn h2 h3 h4 h5
      rw [classify_distribution, if_neg hn, if_neg h2, if_neg h3, if_neg h4, if_neg h5]
    · rw [classify_distribution]
      split
      · simp
      split
      · simp
      split
      · simp
      split
      · simp
      split <;> simp

/-- Witness for C3: a concrete 10-value column with skewness oracle 1 and
kurtosis oracle 0 classifies as positively skewed, with the Shapiro test
included (n = 10 ≤ 5000). -/
theorem C3_distribution_classification_witness :
    ∃ r, analyze_distribution (fun _ => (9/10, 1/2)) (fun _ => (1/10, 2/10))
        (fun _ => 1) (fun _ => 0)
        { nrows := 10,
          cols := [{ name := "a", numeric := true,
                     cells := [.num 1, .num 2, .num 3, .num 4, .num 5,
                               .num 6, .num 7, .num 8, .num 9, .num 10] }] } "a"
      = .ok r ∧
      r.distribution_type = "positivamente assimétrica" ∧
      r.shapiro_statistic = some (9/10) := by
  have h := C3_distribution_classification (fun _ => (9/10, 1/2))
      (fun _ => (1/10, 2/10)) (fun _ => 1) (fun _ => 0)
      { nrows := 10,
        cols := [{ name := "a", numeric := true,
                   cells := [.num 1, .num 2, .num 3, .num 4, .num 5,
                             .num 6, .num 7, .num 8, .num 9, .num 10] }] } "a"
      [1, 2, 3, 4, 5, 6, 7, 8, 9, 10] _
      (by simp [DataFrame.getCol, List.find?, Col.dropna, Cell.toNum]) rfl
  refine ⟨_, rfl, ?_, ?_⟩
  · rw [h.1.2.2.2]
    have hc := (h.2 1 0).2.1 (by norm_num) (by norm_num)
    exact hc
  · exact h.1.2.2.1 (by norm_num) (by norm_num)

/-- Claim C4: `detect_anomalies` returns an error payload — never an
exception — whenever the column is not a known numeric column, or has fewer
than 10 non-missing values, or the method is outside
`{iqr, zscore, isolation_forest}`; otherwise the `iqr` method flags exactly
the values outside `[Q1 - 1.5·IQR, Q3 + 1.5·IQR]` and the `zscore` method
flags exactly the values with `|z| > 3` (stated squared:
`(x - mean)² > 3²·var`); in particular on the values `[1,2,3,4,5,1000]`
the IQR rule's bounds are `[-1.5, 8.5]` and it flags exactly `1000`. -/
theorem C4_detect_anomalies :
    (∀ (iso : List ℚ → List Bool) (df : DataFrame) (column method : String)
       (data : List ℚ),
      data = ((df.getCol column).map Col.dropna).getD [] →
      (column ∉ df.numericNames →
        ∃ e, detect_anomalies iso df column method = .error e) ∧
      (data.length < 10 →
        ∃ e, detect_anomalies iso df column method = .error e) ∧
      (method ∉ ["iqr", "zscore", "isolation_forest"] →
        ∃ e, detect_anomalies iso df column method = .error e) ∧
      (column ∈ df.numericNames → 10 ≤ data.length →
        (detect_anomalies iso df column "iqr").toOption.map (·.anomalies) =
          some (data.filter fun x =>
            decide (x < quantileQ data (1/4)
              - ANOMALY_IQR_MULTIPLIER * (quantileQ data (3/4) - quantileQ data (1/4)))
            || decide (quantileQ data (3/4)
              + ANOMALY_IQR_MULTIPLIER * (quantileQ data (3/4) - quantileQ data (1/4))
              < x)) ∧
        (detect_anomalies iso df column "zscore").toOption.map (·.anomalies) =
          some (data.filter fun x =>
            decide (ANOMALY_ZSCORE_THRESHOLD ^ 2 * svarQ data
              < (x - meanQ data) ^ 2)))) ∧
    iqrLower [1, 2, 3, 4, 5, 1000] = -3/2 ∧
    iqrUpper [1, 2, 3, 4, 5, 1000] = 17/2 ∧
    ([1, 2, 3, 4, 5, 1000] : List ℚ).filter (iqrMask [1, 2, 3, 4, 5, 1000])
      = [1000] := by
  have hlow : iqrLower [1, 2, 3, 4, 5, 1000] = -3/2 := by
    norm_num [iqrLower, ANOMALY_IQR_MULTIPLIER, quantileQ, sortLe, insertLe,
      Int.toNat]
  have hhigh : iqrUpper [1, 2, 3, 4, 5, 1000] = 17/2 := by
    norm_num [iqrUpper, ANOMALY_IQR_MULTIPLIER, quantileQ, sortLe, insertLe,
      Int.toNat]
  refine ⟨?_, hlow, hhigh, ?_⟩
  · intro iso df column method data hdata
    subst hdata
    refine ⟨?_, ?_, ?_, ?_⟩
    · intro hcol
      exact ⟨_, by rw [detect_anomalies, if_pos hcol]⟩
    · intro hlen
      by_cases hcol : column ∉ df.numericNames
      · exact ⟨_, by rw [detect_anomalies, if_pos hcol]⟩
      · refine ⟨"Dados insuficientes para detecção de anomalias", ?_⟩
        rw [detect_anomalies, if_neg hcol]
        simp only [if_pos hlen]
    · intro hm
      by_cases hcol : column ∉ df.numericNames
      · exact ⟨_, by rw [detect_anomalies, if_pos hcol]⟩
      · by_cases hlen : (((df.getCol column).map Col.dropna).getD []).length < 10
        · refine ⟨"Dados insuficientes para detecção de anomalias", ?_⟩
          rw [detect_anomalies, if_neg hcol]
          simp only [if_pos hlen]
        · refine ⟨"Método " ++ method ++ " não implementado", ?_⟩
          rw [detect_anomalies, if_neg hcol]
          have h1 : ¬ method = "zscore" := by simp at hm; tauto
          have h2 : ¬ method = "iqr" := by simp at hm; tauto
          have h3 : ¬ method = "isolation_forest" := by simp at hm; tauto
          simp only [if_neg hlen, if_neg h1, if_neg h2, if_neg h3]
    · intro hcol hlen
      constructor
      · rw [detect_anomalies, if_neg (not_not_intro hcol)]
        simp only [if_neg (by omega : ¬ (((df.getCol column).map Col.dropna).getD
          []).length < 10)]
        rfl
      · rw [detect_anomalies, if_neg (not_not_intro hcol)]
        simp only [if_neg (by omega : ¬ (((df.getCol column).map Col.dropna).getD
          []).length < 10)]
        rfl
  · simp only [iqrMask, hlow, hhigh, List.filter_cons, List.filter_nil,
      Bool.or_eq_true, decide_eq_true_eq]
    norm_num

/-- Witness for C4: on a concrete 12-value column containing the cluster
`1..5` (repeated) and the outlier `1000`, the `iqr` method succeeds and
returns the IQR-flagged values; and an unknown method on the same column
yields an error payload. -/
theorem C4_detect_anomalies_witness :
    ((detect_anomalies (fun l => l.map fun _ => false)
        { nrows := 12,
          cols := [{ name := "v", numeric := true,
                     cells := [.num 1, .num 2, .num 3, .num 4, .num 5, .num 1,
                               .num 2, .num 3, .num 4, .num 5, .num 1, .num 1000] }] }
        "v" "iqr").toOption.map (·.anomalies)).isSome = true ∧
    (∃ e, detect_anomalies (fun l => l.map fun _ => false)
        { nrows := 12,
          cols := [{ name := "v", numeric := true,
                     cells := [.num 1, .num 2, .num 3, .num 4, .num 5, .num 1,
                               .num 2, .num 3, .num 4, .num 5, .num 1, .num 1000] }] }
        "v" "dbscan" = .error e) := by
  have h := (C4_detect_anomalies).1 (fun l => l.map fun _ => false)
      { nrows := 12,
        cols := [{ name := "v", numeric := true,
                   cells := [.num 1, .num 2, .num 3, .num 4, .num 5, .num 1,
                             .num 2, .num 3, .num 4, .num 5, .num 1, .num 1000] }] }
      "v" "dbscan" [1, 2, 3, 4, 5, 1, 2, 3, 4, 5, 1, 1000]
      (by simp [DataFrame.getCol, List.find?, Col.dropna, Cell.toNum])
  refine ⟨?_, h.2.2.1 (by decide)⟩
  rw [(h.2.2.2 (by simp [DataFrame.numericNames, DataFrame.numericCols,
    List.filter]) (by norm_num)).1]
  rfl

/-! Helper lemmas for the correlation analysis. -/

theorem sumProd_comm : ∀ xs ys : List ℚ, sumProd xs ys = sumProd ys xs := by
  intro xs
  induction xs with
  | nil => intro ys; cases ys <;> rfl
  | cons a as ih =>
      intro ys
      cases ys with
      | nil => rfl
      | cons b bs =>
          simp only [sumProd, List.zip_cons_cons, List.map_cons, sumQ,
            List.foldr_cons] at *
          rw [mul_comm a b, ih bs]

theorem sumProd_self_nonneg : ∀ xs : List ℚ, 0 ≤ sumProd xs xs := by
  intro xs
  induction xs with
  | nil => simp [sumProd, sumQ]
  | cons a as ih =>
      simp only [sumProd, List.zip_cons_cons, List.map_cons, sumQ,
        List.foldr_cons] at *
      exact add_nonneg (mul_self_nonneg a) ih

theorem sxy_comm (xs ys : List ℚ) : sxy xs ys = sxy ys xs := by
  unfold sxy
  exact sumProd_comm _ _

theorem sxy_self_nonneg (xs : List ℚ) : 0 ≤ sxy xs xs :=
  sumProd_self_nonneg _

theorem corrE_comm (xs ys : List ℚ) : corrE xs ys = corrE ys xs := by
  unfold corrE
  rw [sxy_comm xs ys, mul_comm (sxy xs xs)]

theorem corrE_self (xs : List ℚ) (h : sxy xs xs ≠ 0) : corrE xs xs = some 1 := by
  unfold corrE
  rw [if_neg (mul_ne_zero h h)]
  congr 1
  rw [abs_of_nonneg (sxy_self_nonneg xs)]
  exact div_self (mul_ne_zero h h)

theorem mem_pairsUpper (n i j : ℕ) :
    (i, j) ∈ pairsUpper n ↔ i < j ∧ j < n := by
  simp only [pairsUpper, List.mem_flatten, List.mem_map, List.mem_range]
  constructor
  · rintro ⟨l, ⟨i', hi', rfl⟩, hmem⟩
    simp only [List.mem_map, List.mem_range] at hmem
    obtain ⟨k, hk, heq⟩ := hmem
    obtain ⟨h1, h2⟩ := Prod.mk.injEq .. ▸ heq
    omega
  · rintro ⟨hij, hjn⟩
    refine ⟨_, ⟨i, by omega, rfl⟩, ?_⟩
    simp only [List.mem_map, List.mem_range]
    exact ⟨j - (i + 1), by omega, by simp only [Prod.mk.injEq, true_and]; omega⟩

theorem strongEntry_eq_some (df : DataFrame) (ij : ℕ × ℕ) (e : CorrPair) :
    strongEntry df ij = some e ↔
      ∃ v, df.corrMatrix ij.1 ij.2 = some v ∧ (1/2 : ℚ) ^ 2 < |v| ∧
        e = { var1 := df.numericNames.getD ij.1 ""
              var2 := df.numericNames.getD ij.2 ""
              correlation := v
              strength := if (7/10 : ℚ) ^ 2 < |v| then "forte" else "moderada" } := by
  unfold strongEntry
  cases hc : df.corrMatrix ij.1 ij.2 with
  | none => simp
  | some v =>
      by_cases ht : CORRELATION_THRESHOLD ^ 2 < |v|
      · simp only [if_pos ht, Option.some.injEq]
        constructor
        · intro he
          exact ⟨v, rfl, by unfold CORRELATION_THRESHOLD at ht; exact ht, he.symm⟩
        · rintro ⟨v', hv', -, he⟩
          cases hv'
          exact he.symm
      · simp only [if_neg ht]
        constructor
        · intro hfalse; cases hfalse
        · rintro ⟨v', hv', ht', -⟩
          cases Option.some.inj hv'
          exact absurd (by unfold CORRELATION_THRESHOLD; exact ht') ht

theorem multiEntry_eq_some (df : DataFrame) (ij : ℕ × ℕ) (p : String × String × ℚ) :
    multiEntry df ij = some p ↔
      ∃ v, df.corrMatrix ij.1 ij.2 = some v ∧ (4/5 : ℚ) ^ 2 < |v| ∧
        p = (df.numericNames.getD ij.1 "", df.numericNames.getD ij.2 "", |v|) := by
  unfold multiEntry
  cases hc : df.corrMatrix ij.1 ij.2 with
  | none => simp
  | some v =>
      by_cases ht : (4/5 : ℚ) ^ 2 < |v|
      · simp only [if_pos ht, Option.some.injEq]
        constructor
        · intro he
          exact ⟨v, rfl, ht, he.symm⟩
        · rintro ⟨v', hv', -, he⟩
          cases hv'
          exact he.symm
      · simp only [if_neg ht]
        constructor
        · intro hfalse; cases hfalse
        · rintro ⟨v', hv', ht', -⟩
          cases Option.some.inj hv'
          exact absurd ht' ht

/-- Counterexample to claim C2 as stated: on a 10-complete-row dataset with
two numeric columns, one of them constant, `compute_correlation_analysis`
succeeds, yet the constant column's diagonal correlation entry is pandas'
NaN (here `none`), not `1.0` — the claim's "diagonal entries equal 1.0"
fails for zero-variance columns. -/
theorem C2_correlation_counterexample :
    2 ≤ dfConstCol.numericNames.length ∧
    10 ≤ dfConstCol.completeRows.length ∧
    ∃ r, compute_correlation_analysis dfConstCol = .ok r ∧
      r.matrix 0 0 ≠ some 1 := by
  have h2 : dfConstCol.numericNames.length = 2 := rfl
  have h10 : dfConstCol.completeRows.length = 10 := rfl
  refine ⟨by omega, by omega, ?_⟩
  refine ⟨_, by rw [compute_correlation_analysis, if_neg (by omega),
    if_neg (by omega)], ?_⟩
  show dfConstCol.corrMatrix 0 0 ≠ some 1
  have hcol : dfConstCol.colData 0 = [1, 1, 1, 1, 1, 1, 1, 1, 1, 1] := rfl
  rw [DataFrame.corrMatrix, hcol]
  have hs : sxy [1, 1, 1, 1, 1, 1, 1, 1, 1, 1] ([1, 1, 1, 1, 1, 1, 1, 1, 1, 1] : List ℚ)
      = 0 := by
    norm_num [sxy, devs, sumProd, sumQ, meanQ]
  rw [corrE, if_pos (by rw [hs]; ring)]
  simp

/-- Claim C2 (amended): for every dataset with at least 2 known numeric
columns and at least 10 complete rows, `compute_correlation_analysis`
returns a success payload whose correlation matrix is symmetric, with
diagonal entries equal to 1.0 *for every numeric column of nonzero
variance over the complete rows* (a zero-variance column's entries are
NaN); `strong_correlations` is exactly the list of distinct unordered
pairs with `|r| > 0.5` — each labeled `forte` if `|r| > 0.7` and
`moderada` otherwise — sorted descending by `|r|` and truncated to at most
15 entries; and the multicollinearity report lists exactly the pairs with
`|r| > 0.8`.  (Correlations are in the signed-square encoding, so the
thresholds appear squared.) -/
theorem C2_correlation_amended :
    ∀ df : DataFrame,
      2 ≤ df.numericNames.length →
      10 ≤ df.completeRows.length →
      ∃ r, compute_correlation_analysis df = .ok r ∧
        (∀ i j, r.matrix i j = r.matrix j i) ∧
        (∀ i, sxy (df.colData i) (df.colData i) ≠ 0 → r.matrix i i = some 1) ∧
        r.strong_correlations = (strongSorted df).take 15 ∧
        r.strong_correlations.length ≤ 15 ∧
        (strongSorted df).Pairwise (fun a b => |b.correlation| ≤ |a.correlation|) ∧
        (∀ e, e ∈ strongSorted df ↔ e ∈ strongCorrs df) ∧
        (∀ e, e ∈ strongCorrs df ↔
          ∃ i j v, i < j ∧ j < df.numericNames.length ∧
            df.corrMatrix i j = some v ∧ (1/2 : ℚ) ^ 2 < |v| ∧
            e = { var1 := df.numericNames.getD i ""
                  var2 := df.numericNames.getD j ""
                  correlation := v
                  strength := if (7/10 : ℚ) ^ 2 < |v| then "forte"
                              else "moderada" }) ∧
        (∀ p, p ∈ r.high_correlation_pairs ↔
          ∃ i j v, i < j ∧ j < df.numericNames.length ∧
            df.corrMatrix i j = some v ∧ (4/5 : ℚ) ^ 2 < |v| ∧
            p = (df.numericNames.getD i "", df.numericNames.getD j "", |v|)) := by
  intro df h2 h10
  have hok : compute_correlation_analysis df =
      .ok { matrix := df.corrMatrix
            strong_correlations := (strongSorted df).take 15
            high_correlation_pairs := multiPairs df
            has_multicollinearity := decide (0 < (multiPairs df).length)
            severity :=
              if 3 < (multiPairs df).length then "alta"
              else if 0 < (multiPairs df).length then "moderada" else "baixa"
            total_pairs := df.numericNames.length * (df.numericNames.length - 1) / 2
            strong_pairs := (strongCorrs df).length } := by
    rw [compute_correlation_analysis, if_neg (by omega), if_neg (by omega)]
  refine ⟨_, hok, ?_, ?_, rfl, ?_, ?_, ?_, ?_, ?_⟩
  · intro i j
    exact corrE_comm (df.colData i) (df.colData j)
  · intro i h
    exact corrE_self (df.colData i) h
  · exact List.length_take_le _ _
  · have hp := pairwise_sortLe (fun e : CorrPair => -|e.correlation|) (strongCorrs df)
    refine hp.imp ?_
    intro a b h
    simp only at h
    exact neg_le_neg_iff.mp h
  · intro e
    exact mem_sortLe (fun e : CorrPair => -|e.correlation|) e (strongCorrs df)
  · intro e
    unfold strongCorrs
    rw [List.mem_filterMap]
    constructor
    · rintro ⟨⟨i, j⟩, hmem, hentry⟩
      obtain ⟨hij, hjn⟩ := (mem_pairsUpper _ i j).mp hmem
      obtain ⟨v, hv, ht, he⟩ := (strongEntry_eq_some df (i, j) e).mp hentry
      exact ⟨i, j, v, hij, hjn, hv, ht, he⟩
    · rintro ⟨i, j, v, hij, hjn, hv, ht, he⟩
      exact ⟨(i, j), (mem_pairsUpper _ i j).mpr ⟨hij, hjn⟩,
        (strongEntry_eq_some df (i, j) e).mpr ⟨v, hv, ht, he⟩⟩
  · intro p
    show p ∈ multiPairs df ↔ _
    unfold multiPairs
    rw [List.mem_filterMap]
    constructor
    · rintro ⟨⟨i, j⟩, hmem, hentry⟩
      obtain ⟨hij, hjn⟩ := (mem_pairsUpper _ i j).mp hmem
      obtain ⟨v, hv, ht, he⟩ := (multiEntry_eq_some df (i, j) p).mp hentry
      exact ⟨i, j, v, hij, hjn, hv, ht, he⟩
    · rintro ⟨i, j, v, hij, hjn, hv, ht, he⟩
      exact ⟨(i, j), (mem_pairsUpper _ i j).mpr ⟨hij, hjn⟩,
        (multiEntry_eq_some df (i, j) p).mpr ⟨v, hv, ht, he⟩⟩

/-- Witness for C2 (amended) on the fixture: the analysis succeeds, the
off-diagonal entries agree (symmetry), and the non-constant column's
diagonal entry is exactly 1. -/
theorem C2_correlation_amended_witness :
    ∃ r, compute_correlation_analysis dfConstCol = .ok r ∧
      r.matrix 0 1 = r.matrix 1 0 ∧ r.matrix 1 1 = some 1 := by
  have h2 : dfConstCol.numericNames.length = 2 := rfl
  have h10 : dfConstCol.completeRows.length = 10 := rfl
  obtain ⟨r, hok, hsymm, hdiag, -⟩ :=
    C2_correlation_amended dfConstCol (by omega) (by omega)
  refine ⟨r, hok, hsymm 0 1, hdiag 1 ?_⟩
  have hcol : dfConstCol.colData 1 = [0, 1, 2, 3, 4, 5, 6, 7, 8, 9] := rfl
  rw [hcol]
  norm_num [sxy, devs, sumProd, sumQ, meanQ]

/-! Helper lemmas for the temporal analysis. -/

theorem length_insertLe {α : Type} (k : α → ℚ) (a : α) (l : List α) :
    (insertLe k a l).length = l.length + 1 := by
  induction l with
  | nil => rfl
  | cons b bs ih =>
      rw [insertLe]
      split
      · rfl
      · simp only [List.length_cons, ih]

theorem length_sortLe {α : Type} (k : α → ℚ) (l : List α) :
    (sortLe k l).length = l.length := by
  induction l with
  | nil => rfl
  | cons a as ih =>
      rw [sortLe, length_insertLe, ih, List.length_cons]

theorem map_fst_filterMap_zip (m : ℚ) :
    ∀ ts vs : List Cell, ts.length = vs.length →
      ((ts.zip vs).filterMap fun p =>
          (p.1.toNum).map fun q => (q - m, p.2)).map Prod.fst
        = (ts.filterMap Cell.toNum).map fun q => q - m := by
  intro ts
  induction ts with
  | nil =>
      intro vs h
      rfl
  | cons t ts' ih =>
      intro vs h
      cases vs with
      | nil => simp at h
      | cons v vs' =>
          have h' : ts'.length = vs'.length := by simpa using h
          cases ht : t.toNum with
          | none =>
              simp only [List.zip_cons_cons, List.filterMap_cons, ht,
                Option.map_none']
              exact ih vs' h'
          | some q =>
              simp only [List.zip_cons_cons, List.filterMap_cons, ht,
                Option.map_some', List.map_cons]
              rw [ih vs' h']

theorem map_fst_elapsedPairs (tc vc : Col) (hlen : tc.cells.length = vc.cells.length) :
    (elapsedPairs tc vc).map Prod.fst
      = tc.dropna.map fun t => t - minQ tc.dropna := by
  unfold elapsedPairs Col.dropna
  exact map_fst_filterMap_zip _ _ _ hlen

/-- Reduction of `temporal_analysis` on a numeric-dtype time column with
enough retained rows: the exact success record it returns. -/
theorem temporal_analysis_numeric (parse : Cell → Option ℚ) (month : ℚ → ℕ)
    (linreg : List ℚ → List Cell → ℚ × ℚ × ℚ) (df : DataFrame)
    (time_col value_col : String) (tc vc : Col)
    (htc : df.getCol time_col = some tc) (hvc : df.getCol value_col = some vc)
    (hmem : value_col ∈ df.numericNames) (hnum : tc.numeric = true)
    (h10 : ¬ (sortLe (fun p : ℚ × Cell => p.1) (elapsedPairs tc vc)).length < 10) :
    temporal_analysis parse month linreg df time_col value_col = .ok
      { rows := sortLe (fun p : ℚ × Cell => p.1) (elapsedPairs tc vc)
        time_label := "Seconds since first transaction"
        is_numeric_time := true
        window_size := min 30 (max 3
          ((sortLe (fun p : ℚ × Cell => p.1) (elapsedPairs tc vc)).length / 10))
        moving_avg := rollingMean
          (min 30 (max 3
            ((sortLe (fun p : ℚ × Cell => p.1) (elapsedPairs tc vc)).length / 10)))
          ((sortLe (fun p : ℚ × Cell => p.1) (elapsedPairs tc vc)).map (·.2))
        reg_x := (sortLe (fun p : ℚ × Cell => p.1) (elapsedPairs tc vc)).map (·.1)
        slope := (linreg
          ((sortLe (fun p : ℚ × Cell => p.1) (elapsedPairs tc vc)).map (·.1))
          ((sortLe (fun p : ℚ × Cell => p.1) (elapsedPairs tc vc)).map (·.2))).1
        r_squared := (linreg
          ((sortLe (fun p : ℚ × Cell => p.1) (elapsedPairs tc vc)).map (·.1))
          ((sortLe (fun p : ℚ × Cell => p.1) (elapsedPairs tc vc)).map (·.2))).2.1 ^ 2
        p_value := (linreg
          ((sortLe (fun p : ℚ × Cell => p.1) (elapsedPairs tc vc)).map (·.1))
          ((sortLe (fun p : ℚ × Cell => p.1) (elapsedPairs tc vc)).map (·.2))).2.2
        trend_direction :=
          if 0 < (linreg
              ((sortLe (fun p : ℚ × Cell => p.1) (elapsedPairs tc vc)).map (·.1))
              ((sortLe (fun p : ℚ × Cell => p.1) (elapsedPairs tc vc)).map (·.2))).1
          then "crescente"
          else if (linreg
              ((sortLe (fun p : ℚ × Cell => p.1) (elapsedPairs tc vc)).map (·.1))
              ((sortLe (fun p : ℚ × Cell => p.1) (elapsedPairs tc vc)).map (·.2))).1 < 0
          then "decrescente" else "estável"
        seasonal_pattern := none
        data_points :=
          (sortLe (fun p : ℚ × Cell => p.1) (elapsedPairs tc vc)).length } := by
  simp only [temporal_analysis, htc, hvc]
  rw [if_neg (not_not_intro hmem)]
  simp only [hnum, if_true]
  rw [if_neg h10]

/-- Reduction of `temporal_analysis` on a non-numeric (calendar) time
column with enough parseable rows: the exact success record it returns. -/
theorem temporal_analysis_calendar (parse : Cell → Option ℚ) (month : ℚ → ℕ)
    (linreg : List ℚ → List Cell → ℚ × ℚ × ℚ) (df : DataFrame)
    (time_col value_col : String) (tc vc : Col)
    (htc : df.getCol time_col = some tc) (hvc : df.getCol value_col = some vc)
    (hmem : value_col ∈ df.numericNames) (hnum : tc.numeric = false)
    (h10 : ¬ (sortLe (fun p : ℚ × Cell => p.1) (parsedPairs parse tc vc)).length < 10) :
    temporal_analysis parse month linreg df time_col value_col = .ok
      { rows := sortLe (fun p : ℚ × Cell => p.1) (parsedPairs parse tc vc)
        time_label := time_col
        is_numeric_time := false
        window_size := min 30 (max 3
          ((sortLe (fun p : ℚ × Cell => p.1) (parsedPairs parse tc vc)).length / 10))
        moving_avg := rollingMean
          (min 30 (max 3
            ((sortLe (fun p : ℚ × Cell => p.1) (parsedPairs parse tc vc)).length / 10)))
          ((sortLe (fun p : ℚ × Cell => p.1) (parsedPairs parse tc vc)).map (·.2))
        reg_x := (List.range
          (sortLe (fun p : ℚ × Cell => p.1) (parsedPairs parse tc vc)).length).map
          (fun i => (i : ℚ))
        slope := (linreg
          ((List.range
            (sortLe (fun p : ℚ × Cell => p.1) (parsedPairs parse tc vc)).length).map
            (fun i => (i : ℚ)))
          ((sortLe (fun p : ℚ × Cell => p.1) (parsedPairs parse tc vc)).map (·.2))).1
        r_squared := (linreg
          ((List.range
            (sortLe (fun p : ℚ × Cell => p.1) (parsedPairs parse tc vc)).length).map
            (fun i => (i : ℚ)))
          ((sortLe (fun p : ℚ × Cell => p.1) (parsedPairs parse tc vc)).map (·.2))).2.1 ^ 2
        p_value := (linreg
          ((List.range
            (sortLe (fun p : ℚ × Cell => p.1) (parsedPairs parse tc vc)).length).map
            (fun i => (i : ℚ)))
          ((sortLe (fun p : ℚ × Cell => p.1) (parsedPairs parse tc vc)).map (·.2))).2.2
        trend_direction :=
          if 0 < (linreg
              ((List.range
                (sortLe (fun p : ℚ × Cell => p.1) (parsedPairs parse tc vc)).length).map
                (fun i => (i : ℚ)))
              ((sortLe (fun p : ℚ × Cell => p.1) (parsedPairs parse tc vc)).map (·.2))).1
          then "crescente"
          else if (linreg
              ((List.range
                (sortLe (fun p : ℚ × Cell => p.1) (parsedPairs parse tc vc)).length).map
                (fun i => (i : ℚ)))
              ((sortLe (fun p : ℚ × Cell => p.1) (parsedPairs parse tc vc)).map (·.2))).1 < 0
          then "decrescente" else "estável"
        seasonal_pattern :=
          if 50 < (sortLe (fun p : ℚ × Cell => p.1) (parsedPairs parse tc vc)).length
          then some (monthlyAvg month
            (sortLe (fun p : ℚ × Cell => p.1) (parsedPairs parse tc vc)))
          else none
        data_points :=
          (sortLe (fun p : ℚ × Cell => p.1) (parsedPairs parse tc vc)).length } := by
  simp only [temporal_analysis, htc, hvc]
  rw [if_neg (not_not_intro hmem)]
  simp only [hnum, Bool.false_eq_true, if_false]
  rw [if_neg h10]

/-- Claim C1: `temporal_analysis` interprets a numeric-dtype time column as
elapsed time since the first record — each retained axis value is the
original value minus the column minimum (no epoch conversion), so the axis
contains 0 and is nonnegative — sorts the retained rows ascending by that
elapsed time, uses the window `min(30, max(3, n/10))` over the `n` retained
rows for the moving average, regresses against the elapsed-time values, and
produces no seasonal pattern; for a non-numeric (calendar) time column it
regresses against the row index and computes monthly seasonal averages
exactly when more than 50 rows remain. -/
theorem C1_temporal_elapsed_seconds :
    (∀ (parse : Cell → Option ℚ) (month : ℚ → ℕ)
       (linreg : List ℚ → List Cell → ℚ × ℚ × ℚ) (df : DataFrame)
       (time_col value_col : String) (tc vc : Col),
      df.getCol time_col = some tc →
      df.getCol value_col = some vc →
      value_col ∈ df.numericNames →
      tc.cells.length = vc.cells.length →
      tc.numeric = true →
      10 ≤ (elapsedPairs tc vc).length →
      ∃ r, temporal_analysis parse month linreg df time_col value_col = .ok r ∧
        r.is_numeric_time = true ∧
        r.rows = sortLe Prod.fst (elapsedPairs tc vc) ∧
        (∀ p, p ∈ r.rows ↔ p ∈ elapsedPairs tc vc) ∧
        (elapsedPairs tc vc).map Prod.fst
          = tc.dropna.map (fun t => t - minQ tc.dropna) ∧
        (0 : ℚ) ∈ r.rows.map Prod.fst ∧
        (∀ t ∈ r.rows.map Prod.fst, 0 ≤ t) ∧
        r.rows.Pairwise (fun a b => a.1 ≤ b.1) ∧
        r.data_points = (elapsedPairs tc vc).length ∧
        r.window_size = min 30 (max 3 (r.data_points / 10)) ∧
        r.reg_x = r.rows.map Prod.fst ∧
        r.seasonal_pattern = none) ∧
    (∀ (parse : Cell → Option ℚ) (month : ℚ → ℕ)
       (linreg : List ℚ → List Cell → ℚ × ℚ × ℚ) (df : DataFrame)
       (time_col value_col : String) (tc vc : Col),
      df.getCol time_col = some tc →
      df.getCol value_col = some vc →
      value_col ∈ df.numericNames →
      tc.numeric = false →
      10 ≤ (parsedPairs parse tc vc).length →
      ∃ r, temporal_analysis parse month linreg df time_col value_col = .ok r ∧
        r.is_numeric_time = false ∧
        r.data_points = (parsedPairs parse tc vc).length ∧
        r.window_size = min 30 (max 3 (r.data_points / 10)) ∧
        r.reg_x = (List.range r.data_points).map (fun i => (i : ℚ)) ∧
        (r.seasonal_pattern ≠ none ↔ 50 < r.data_points)) := by
  constructor
  · intro parse month linreg df time_col value_col tc vc htc hvc hmem hlen hnum h10
    have h10s : ¬ (sortLe (fun p : ℚ × Cell => p.1) (elapsedPairs tc vc)).length < 10 := by
      rw [length_sortLe]
      omega
    have hfst := map_fst_elapsedPairs tc vc hlen
    have hdlen : tc.dropna.length = (elapsedPairs tc vc).length := by
      have := congrArg List.length hfst
      simpa using this.symm
    have hdne : tc.dropna ≠ [] := by
      intro hnil
      rw [hnil] at hdlen
      simp at hdlen
      omega
    have hmm : ∀ x : ℚ, x ∈ (elapsedPairs tc vc).map Prod.fst ↔
        x ∈ (sortLe (fun p : ℚ × Cell => p.1) (elapsedPairs tc vc)).map Prod.fst := by
      intro x
      simp only [List.mem_map]
      constructor
      · rintro ⟨p, hp, rfl⟩
        exact ⟨p, (mem_sortLe _ p _).mpr hp, rfl⟩
      · rintro ⟨p, hp, rfl⟩
        exact ⟨p, (mem_sortLe _ p _).mp hp, rfl⟩
    refine ⟨_, temporal_analysis_numeric parse month linreg df time_col value_col
      tc vc htc hvc hmem hnum h10s, rfl, rfl, ?_, hfst, ?_, ?_, ?_, ?_, rfl, rfl, rfl⟩
    · exact fun p => mem_sortLe (fun p : ℚ × Cell => p.1) p (elapsedPairs tc vc)
    · refine (hmm 0).mp ?_
      rw [hfst]
      exact List.mem_map.mpr ⟨minQ tc.dropna, minQ_mem _ hdne, sub_self _⟩
    · intro t ht
      have ht' := (hmm t).mpr ht
      rw [hfst] at ht'
      obtain ⟨x, hx, rfl⟩ := List.mem_map.mp ht'
      have := minQ_le tc.dropna x hx
      linarith
    · exact pairwise_sortLe (fun p : ℚ × Cell => p.1) (elapsedPairs tc vc)
    · exact length_sortLe _ _
  · intro parse month linreg df time_col value_col tc vc htc hvc hmem hnum h10
    have h10s : ¬ (sortLe (fun p : ℚ × Cell => p.1) (parsedPairs parse tc vc)).length
        < 10 := by
      rw [length_sortLe]
      omega
    refine ⟨_, temporal_analysis_calendar parse month linreg df time_col value_col
      tc vc htc hvc hmem hnum h10s, rfl, length_sortLe _ _, rfl, ?_, ?_⟩
    · show ((List.range
        (sortLe (fun p : ℚ × Cell => p.1) (parsedPairs parse tc vc)).length).map
          (fun i => (i : ℚ))) = _
      rw [length_sortLe]
    · show (if 50 < (sortLe (fun p : ℚ × Cell => p.1) (parsedPairs parse tc vc)).length
          then some (monthlyAvg month (sortLe (fun p : ℚ × Cell => p.1)
            (parsedPairs parse tc vc)))
          else none) ≠ none ↔ _
      rw [length_sortLe]
      by_cases h50 : 50 < (parsedPairs parse tc vc).length
      · simp only [if_pos h50]
        simp [h50, length_sortLe]
      · simp only [if_neg h50]
        simp [h50, length_sortLe]

/-- Witness for C1 on a concrete 10-row dataset with the numeric time
column `Time = [0, 30, 65, 100, 140, 185, 230, 280, 330, 400]`: the
analysis succeeds with a numeric-time (elapsed-seconds) axis containing 0,
no seasonal pattern, and the `min(30, max(3, n/10))` window. -/
theorem C1_temporal_elapsed_seconds_witness :
    ∃ r, temporal_analysis (fun _ => none) (fun _ => 1) (fun _ _ => (1, 0, 0))
        { nrows := 10,
          cols := [{ name := "Time", numeric := true,
                     cells := [.num 0, .num 30, .num 65, .num 100, .num 140,
                               .num 185, .num 230, .num 280, .num 330, .num 400] },
                   { name := "Amount", numeric := true,
                     cells := [.num 5, .num 3, .num 8, .num 2, .num 7,
                               .num 1, .num 9, .num 4, .num 6, .num 10] }] }
        "Time" "Amount" = .ok r ∧
      r.is_numeric_time = true ∧
      r.seasonal_pattern = none ∧
      (0 : ℚ) ∈ r.rows.map Prod.fst ∧
      r.window_size = min 30 (max 3 (r.data_points / 10)) := by
  obtain ⟨r, hok, h1, -, -, -, h0, -, -, -, hw, -, hs⟩ :=
    C1_temporal_elapsed_seconds.1 (fun _ => none) (fun _ => 1) (fun _ _ => (1, 0, 0))
      { nrows := 10,
        cols := [{ name := "Time", numeric := true,
                   cells := [.num 0, .num 30, .num 65, .num 100, .num 140,
                             .num 185, .num 230, .num 280, .num 330, .num 400] },
                 { name := "Amount", numeric := true,
                   cells := [.num 5, .num 3, .num 8, .num 2, .num 7,
                             .num 1, .num 9, .num 4, .num 6, .num 10] }] }
      "Time" "Amount"
      { name := "Time", numeric := true,
        cells := [.num 0, .num 30, .num 65, .num 100, .num 140,
                  .num 185, .num 230, .num 280, .num 330, .num 400] }
      { name := "Amount", numeric := true,
        cells := [.num 5, .num 3, .num 8, .num 2, .num 7,
                  .num 1, .num 9, .num 4, .num 6, .num 10] }
      rfl rfl (by decide) (by decide) rfl (by decide)
  exact ⟨r, hok, h1, hs, h0, hw⟩

end EDA
